import Mathlib

/-!
Verification of the voyager-overlay drawing core: a shallow embedding of
`content_stream_string.cpp` (the content-stream instruction builder) and of
the renderers and tiling layout in `voyager-overlay.cpp`, with theorems
settling the specification's claims about them.

Modelling conventions:
* C++ `double` arithmetic is modelled over a linear ordered field `K`
  (instantiated at `ℚ` for computation and at `ℝ` where the irrational
  constant `√2` matters).  `std::sqrt(2.0)` is passed in as an explicit
  parameter `sqrt2 : K` so all definitions stay executable.
* A `double` division is modelled by `fpDiv`, which returns `none` when the
  divisor is zero (IEEE arithmetic would produce an infinity there, which a
  real/rational model cannot represent; `none` marks exactly the divisions
  by zero the spec worries about).
* The builder's text buffer is modelled as a list of structured
  instructions (`Instr`): each `insert` call of the C++ class appends one
  formatted operator group before the trailer, so byte-for-byte equality of
  the produced text corresponds to equality of instruction lists (plus the
  constant wrapper).
* C++ `throw` is modelled with `Except`; the error value carries the state
  of the builder at the moment of the throw, so that atomicity claims
  ("the object is unchanged when the exception is raised") are expressible
  and not true by construction.
-/

/-- The 2D coordinate, from `content_stream_string.h` (`struct Coord`). -/
structure Coord (K : Type) where
  x : K
  y : K
  deriving DecidableEq

/-- Width/height pair, from `content_stream_string.h` (`struct Dimensions`). -/
structure Dimensions (K : Type) where
  width : K
  height : K
  deriving DecidableEq

/-- RGB color, from `content_stream_string.h` (`struct Color`). -/
structure Color (K : Type) where
  r : K
  g : K
  b : K
  deriving DecidableEq

/-- Embeds `constexpr Color BLACK` (0, 0, 0). -/
def BLACK (K : Type) [LinearOrderedField K] : Color K := ⟨0, 0, 0⟩

/-- Path fill rule, from `content_stream_string.h` (`enum struct FillRule`). -/
inductive FillRule where
  | NONZERO_WINDING
  | EVEN_ODD
  deriving DecidableEq

/-- One operator group emitted by a single `insert` call of
`ContentStreamString`.  Each constructor corresponds to one formatted text
chunk of the C++ code; rendering a list of these with the `{:g}` float
format reproduces the produced content-stream text, so list equality models
byte-for-byte text equality. -/
inductive Instr (K : Type) where
  | setLineWidth (w : K)
  | setFillColorSpace (name : String)
  | setStrokeColorSpace (name : String)
  | setFillColor (r g b : K)
  | setStrokeColor (r g b : K)
  | moveTo (x y : K)
  | lineTo (x y : K)
  | curveTo (x1 y1 x2 y2 x3 y3 : K)
  | closePath
  | strokeOp
  | closeStrokeOp
  | fillOp (rule : FillRule)
  | fillStrokeOp (rule : FillRule)
  | closeFillStrokeOp (rule : FillRule)
  deriving DecidableEq

/-- State of a `ContentStreamString`: the accumulated instruction buffer
(the text inserted before the trailer), the trailer length (2 when the
`"q Q\n"` wrapper was pre-seeded), and the path cursor
(`have_last_coord` / `last_coord`), mirroring the private fields of the
C++ class. -/
structure CSS (K : Type) where
  buf : List (Instr K)
  trailer_length : Nat
  have_last_coord : Bool
  last_coord : Coord K
  deriving DecidableEq

/-- Embeds `ContentStreamString::ContentStreamString(bool path_graphics_state)`:
empty buffer; when the flag is set the `"q Q\n"` wrapper is seeded and the
trailer length is 2. -/
def CSS.init (K : Type) [LinearOrderedField K] (path_graphics_state : Bool) : CSS K :=
  { buf := []
    trailer_length := if path_graphics_state then 2 else 0
    have_last_coord := false
    last_coord := ⟨0, 0⟩ }

/-- Embeds `ContentStreamString::insert`: splice one formatted chunk in just
before the trailer, i.e. append it to the instruction buffer. -/
def CSS.insertInstr {K : Type} (s : CSS K) (i : Instr K) : CSS K :=
  { s with buf := s.buf ++ [i] }

/-- Embeds `ContentStreamString::set_color_space`. -/
def CSS.set_color_space {K : Type} (s : CSS K) (color_space : String)
    (fill stroke : Bool) : CSS K :=
  let s := if fill then s.insertInstr (.setFillColorSpace color_space) else s
  if stroke then s.insertInstr (.setStrokeColorSpace color_space) else s

/-- Embeds `ContentStreamString::set_color`. -/
def CSS.set_color {K : Type} (s : CSS K) (color : Color K)
    (fill stroke : Bool) : CSS K :=
  let s := if fill then s.insertInstr (.setFillColor color.r color.g color.b) else s
  if stroke then s.insertInstr (.setStrokeColor color.r color.g color.b) else s

/-- Embeds `ContentStreamString::set_line_width`. -/
def CSS.set_line_width {K : Type} (s : CSS K) (width : K) : CSS K :=
  s.insertInstr (.setLineWidth width)

/-- Embeds `ContentStreamString::move_to`. -/
def CSS.move_to {K : Type} (s : CSS K) (dest : Coord K) : CSS K :=
  { s.insertInstr (.moveTo dest.x dest.y) with
    last_coord := dest
    have_last_coord := true }

/-- Embeds `ContentStreamString::line_to`. -/
def CSS.line_to {K : Type} (s : CSS K) (dest : Coord K) : CSS K :=
  { s.insertInstr (.lineTo dest.x dest.y) with
    last_coord := dest
    have_last_coord := true }

/-- Embeds `ContentStreamString::arc_to(Coord dest, bool clockwise)`: throws
`std::logic_error("arc_to() origin unknown")` when the cursor is undefined
(modelled as `.error` carrying the message and the builder state at the
moment of the throw); otherwise emits one cubic curve whose control points
are offset by `c = radius * 4 * (sqrt2 - 1) / 3` according to the quadrant,
with `radius = |p0.x - p3.x|`, and moves the cursor to `dest`.  The
comparisons in the counterclockwise branch reproduce the source verbatim,
including its comparisons of `p0.x` against `p3.y`. -/
def CSS.arc_to {K : Type} [LinearOrderedField K] (s : CSS K) (sqrt2 : K)
    (dest : Coord K) (clockwise : Bool) : Except (String × CSS K) (CSS K) :=
  if s.have_last_coord = false then .error ("arc_to() origin unknown", s) else
  let p0 := s.last_coord
  let p3 := dest
  let radius := |p0.x - p3.x|
  let c := radius * 4 * (sqrt2 - 1) / 3
  let pp : Coord K × Coord K :=
    if clockwise then
      if p0.x < p3.x ∧ p0.y > p3.y then
        (⟨p0.x + c, p0.y⟩, ⟨p3.x, p3.y + c⟩)
      else if p0.x < p3.x ∧ p0.y < p3.y then
        (⟨p0.x, p0.y + c⟩, ⟨p3.x - c, p3.y⟩)
      else if p0.x > p3.x ∧ p0.y < p3.y then
        (⟨p0.x - c, p0.y⟩, ⟨p3.x, p3.y - c⟩)
      else
        (⟨p0.x, p0.y - c⟩, ⟨p3.x + c, p3.y⟩)
    else
      if p0.x > p3.x ∧ p0.y < p3.y then
        (⟨p0.x, p0.y + c⟩, ⟨p3.x + c, p3.y⟩)
      else if p0.x > p3.y ∧ p0.y > p3.y then
        (⟨p0.x - c, p0.y⟩, ⟨p3.x, p3.y + c⟩)
      else if p0.x < p3.y ∧ p0.y > p3.y then
        (⟨p0.x, p0.y - c⟩, ⟨p3.x - c, p3.y⟩)
      else
        (⟨p0.x + c, p0.y⟩, ⟨p3.x, p3.y - c⟩)
  .ok { s.insertInstr (.curveTo pp.1.x pp.1.y pp.2.x pp.2.y p3.x p3.y) with
        last_coord := dest
        have_last_coord := true }

/-- Embeds `ContentStreamString::rect(Dimensions dimensions)`: same undefined-cursor
check (with the same copy-pasted message text as `arc_to`), then four
`line_to` calls tracing top, right, bottom and left sides from the cursor
taken as top-left corner. -/
def CSS.rect {K : Type} [LinearOrderedField K] (s : CSS K)
    (dimensions : Dimensions K) : Except (String × CSS K) (CSS K) :=
  if s.have_last_coord = false then .error ("arc_to() origin unknown", s) else
  let origin := s.last_coord
  let s := s.line_to ⟨origin.x + dimensions.width, origin.y⟩
  let s := s.line_to ⟨origin.x + dimensions.width, origin.y - dimensions.height⟩
  let s := s.line_to ⟨origin.x, origin.y - dimensions.height⟩
  let s := s.line_to origin
  .ok s

/-- Embeds `ContentStreamString::rounded_rect(Dimensions dimensions, double radius)`:
undefined-cursor check, `radius == 0.0` degenerates to `rect`, otherwise the
eight-segment clockwise trace ending with a `move_to` back to the origin. -/
def CSS.rounded_rect {K : Type} [LinearOrderedField K] (s : CSS K) (sqrt2 : K)
    (dimensions : Dimensions K) (radius : K) : Except (String × CSS K) (CSS K) :=
  if s.have_last_coord = false then .error ("arc_to() origin unknown", s) else
  if radius = 0 then s.rect dimensions else
  let origin := s.last_coord
  let s := s.move_to ⟨origin.x, origin.y - radius⟩
  (s.arc_to sqrt2 ⟨origin.x + radius, origin.y⟩ true).bind fun s =>
  let s := s.line_to ⟨origin.x + dimensions.width - radius, origin.y⟩
  (s.arc_to sqrt2 ⟨origin.x + dimensions.width, origin.y - radius⟩ true).bind fun s =>
  let s := s.line_to ⟨origin.x + dimensions.width, origin.y - dimensions.height + radius⟩
  (s.arc_to sqrt2 ⟨origin.x + dimensions.width - radius, origin.y - dimensions.height⟩ true).bind fun s =>
  let s := s.line_to ⟨origin.x + radius, origin.y - dimensions.height⟩
  (s.arc_to sqrt2 ⟨origin.x, origin.y - dimensions.height + radius⟩ true).bind fun s =>
  let s := s.line_to ⟨origin.x, origin.y - radius⟩
  .ok (s.move_to origin)

/-- Embeds `ContentStreamString::path_close`. -/
def CSS.path_close {K : Type} (s : CSS K) : CSS K :=
  { s.insertInstr .closePath with have_last_coord := false }

/-- Embeds `ContentStreamString::path_stroke`. -/
def CSS.path_stroke {K : Type} (s : CSS K) : CSS K :=
  s.insertInstr .strokeOp

/-- Embeds `ContentStreamString::path_close_stroke`. -/
def CSS.path_close_stroke {K : Type} (s : CSS K) : CSS K :=
  { s.insertInstr .closeStrokeOp with have_last_coord := false }

/-- Embeds `ContentStreamString::path_fill`. -/
def CSS.path_fill {K : Type} (s : CSS K) (fill_rule : FillRule) : CSS K :=
  s.insertInstr (.fillOp fill_rule)

/-- Embeds `ContentStreamString::path_fill_stroke`. -/
def CSS.path_fill_stroke {K : Type} (s : CSS K) (fill_rule : FillRule) : CSS K :=
  s.insertInstr (.fillStrokeOp fill_rule)

/-- Embeds `ContentStreamString::path_close_fill_stroke`. -/
def CSS.path_close_fill_stroke {K : Type} (s : CSS K) (fill_rule : FillRule) : CSS K :=
  { s.insertInstr (.closeFillStrokeOp fill_rule) with have_last_coord := false }

/-- Whether an `Except` computation succeeded (models "the call returned
without throwing"). -/
def exceptIsOk {ε α : Type} : Except ε α → Bool
  | .ok _ => true
  | .error _ => false

/-- Registration/crop mark geometry, from `voyager-overlay.cpp`
(`struct RegistrationGeometry`). -/
structure RegistrationGeometry (K : Type) where
  inset_left_in : K
  inset_right_in : K
  inset_top_in : K
  inset_bottom_in : K
  square_size_in : K
  line_length_in : K
  line_width_in : K
  deriving DecidableEq

/-- Overlay/keypad geometry, from `voyager-overlay.cpp`
(`struct OverlayGeometry`). -/
structure OverlayGeometry (K : Type) where
  width_in : K
  height_in : K
  corner_radius_in : K
  key_col_pitch_in : K
  key_row_pitch_in : K
  key_row_1_offset_in : K
  key_width_in : K
  key_height_in : K
  key_corner_radius_in : K
  deriving DecidableEq

/-- Embeds `constexpr RegistrationGeometry cameo4_no_mat_reg_geometry`, with the
page inset and mark size constants substituted
(`0.625`, `0.625`, `0.625`, `1.024`, `0.25`, `0.25`, `0.5/25.4`). -/
def cameo4_no_mat_reg_geometry : RegistrationGeometry ℚ :=
  { inset_left_in := 625/1000
    inset_right_in := 625/1000
    inset_top_in := 625/1000
    inset_bottom_in := 1024/1000
    square_size_in := 250/1000
    line_length_in := 250/1000
    line_width_in := (5/10) / (254/10) }

/-- Embeds `create_registration(page_width_in, page_height_in, geom)` from
`voyager-overlay.cpp`: line width, color space and color setup, then the
filled square at the top left of the cut area, the right angle at the
bottom left, and the right angle at the top right, threaded through the
instruction builder exactly as in the source.  (`rect` can throw, hence the
`Except`; the preceding `move_to` makes it succeed.) -/
def create_registration {K : Type} [LinearOrderedField K]
    (page_width_in page_height_in : K) (geom : RegistrationGeometry K) :
    Except (String × CSS K) (CSS K) :=
  let s := CSS.init K true
  let s := s.set_line_width geom.line_width_in
  let s := s.set_color_space "DeviceRGB" true true
  let s := s.set_color (BLACK K) true true
  let s := s.move_to ⟨geom.inset_left_in, page_height_in - geom.inset_top_in⟩
  (s.rect ⟨geom.square_size_in, geom.square_size_in⟩).bind fun s =>
  let s := s.path_close_fill_stroke .NONZERO_WINDING
  let s := s.move_to ⟨geom.inset_left_in, geom.inset_bottom_in + geom.line_length_in⟩
  let s := s.line_to ⟨geom.inset_left_in, geom.inset_bottom_in⟩
  let s := s.line_to ⟨geom.inset_left_in + geom.line_length_in, geom.inset_bottom_in⟩
  let s := s.path_stroke
  let s := s.move_to ⟨page_width_in - geom.inset_right_in - geom.line_length_in, page_height_in - geom.inset_top_in⟩
  let s := s.line_to ⟨page_width_in - geom.inset_right_in, page_height_in - geom.inset_top_in⟩
  let s := s.line_to ⟨page_width_in - geom.inset_right_in, page_height_in - geom.inset_top_in - geom.line_length_in⟩
  let s := s.path_stroke
  .ok s

/-- The instruction buffer produced by `create_registration` (empty list in
the impossible error case), for stating position claims about the marks. -/
def reg_buf (page_width_in page_height_in : ℚ) (geom : RegistrationGeometry ℚ) :
    List (Instr ℚ) :=
  match create_registration page_width_in page_height_in geom with
  | .ok s => s.buf
  | .error _ => []

/-- The state-setup instructions emitted before any mark
(line width, fill/stroke color space, fill/stroke color). -/
def reg_header_instrs {K : Type} [LinearOrderedField K]
    (geom : RegistrationGeometry K) : List (Instr K) :=
  [.setLineWidth geom.line_width_in,
   .setFillColorSpace "DeviceRGB",
   .setStrokeColorSpace "DeviceRGB",
   .setFillColor 0 0 0,
   .setStrokeColor 0 0 0]

/-- The instructions of the filled square mark at the top left of the cut
area: its `move_to`, the four sides traced by `rect`, and the
close/fill/stroke operator. -/
def reg_square_instrs {K : Type} [LinearOrderedField K]
    (page_height_in : K) (geom : RegistrationGeometry K) : List (Instr K) :=
  [.moveTo geom.inset_left_in (page_height_in - geom.inset_top_in),
   .lineTo (geom.inset_left_in + geom.square_size_in) (page_height_in - geom.inset_top_in),
   .lineTo (geom.inset_left_in + geom.square_size_in) (page_height_in - geom.inset_top_in - geom.square_size_in),
   .lineTo geom.inset_left_in (page_height_in - geom.inset_top_in - geom.square_size_in),
   .lineTo geom.inset_left_in (page_height_in - geom.inset_top_in),
   .closeFillStrokeOp .NONZERO_WINDING]

/-- The instructions of the open right angle at the bottom left of the cut
area.  It mentions neither page dimension: this mark is anchored to the
left and bottom insets alone. -/
def reg_bl_angle_instrs {K : Type} [LinearOrderedField K]
    (geom : RegistrationGeometry K) : List (Instr K) :=
  [.moveTo geom.inset_left_in (geom.inset_bottom_in + geom.line_length_in),
   .lineTo geom.inset_left_in geom.inset_bottom_in,
   .lineTo (geom.inset_left_in + geom.line_length_in) geom.inset_bottom_in,
   .strokeOp]

/-- The instructions of the open right angle at the top right of the cut
area. -/
def reg_tr_angle_instrs {K : Type} [LinearOrderedField K]
    (page_width_in page_height_in : K) (geom : RegistrationGeometry K) : List (Instr K) :=
  [.moveTo (page_width_in - geom.inset_right_in - geom.line_length_in) (page_height_in - geom.inset_top_in),
   .lineTo (page_width_in - geom.inset_right_in) (page_height_in - geom.inset_top_in),
   .lineTo (page_width_in - geom.inset_right_in) (page_height_in - geom.inset_top_in - geom.line_length_in),
   .strokeOp]

/-- Translate the coordinates of a path instruction by `(dx, dy)`;
state-setting and path-painting operators carry no position. -/
def instr_shift {K : Type} [LinearOrderedField K] (dx dy : K) : Instr K → Instr K
  | .moveTo x y => .moveTo (x + dx) (y + dy)
  | .lineTo x y => .lineTo (x + dx) (y + dy)
  | .curveTo x1 y1 x2 y2 x3 y3 =>
      .curveTo (x1 + dx) (y1 + dy) (x2 + dx) (y2 + dy) (x3 + dx) (y3 + dy)
  | i => i

/-- The legend initializer list of `legend_map` in `voyager-overlay.cpp`,
in source order, with the `#if 1` branch of the conditional compilation
(the branch the compiler sees).  Note the two entries for key code 40. -/
def legend_entries : List (Int × String) :=
  [(11, "ln e^x"), (12, "log 10^x"), (13, "? fact"), (14, "sin -1"),
   (15, "cos -1"), (16, "tan -1"),
   (17, "MASKL"), (18, "MASKR"), (19, "RMD"), (10, "XOR"),
   (21, "x<>(i)"), (22, "x<>I"), (23, "SH HEX"), (24, "SH DEC"),
   (25, "SH OCT"), (26, "SH BIN"), (27, "SB"), (28, "CB"), (29, "B?"),
   (30, "AND"),
   (31, "(i)"), (32, "I"), (33, "CL PRGM"), (34, "CL REG"), (35, "CL PRFX"),
   (36, "WINDOW"), (37, "1s COMP"), (38, "2s COMP"), (39, "UNSIGNED"),
   (40, "NOT"),
   (41, ""), (42, ""), (43, ""), (44, "WSIZE"), (45, "FLOAT"),
   (47, "MEM"), (48, "STATUS"), (49, "EEX"), (40, "OR")]

/-- Models the `std::map` insertion performed by the initializer-list constructor:
`insert` adds the pair only if no element with an equivalent key is present
(it never overwrites), so among duplicate keys the first occurrence wins.
The map is modelled as an association list keyed by first occurrence. -/
def map_insert (m : List (Int × String)) (kv : Int × String) : List (Int × String) :=
  if (m.lookup kv.1).isSome then m else m ++ [kv]

/-- The `legend_map` global after construction from its initializer list. -/
def legend_map : List (Int × String) :=
  legend_entries.foldl map_insert []

/-- Models `std::map::operator[]`: return the mapped value if the key is present;
otherwise insert a value-initialized (empty) string for the key and return
it.  Returns the (possibly mutated) map together with the looked-up
value. -/
def map_index (m : List (Int × String)) (k : Int) : List (Int × String) × String :=
  match m.lookup k with
  | some v => (m, v)
  | none => (m ++ [(k, "")], "")

/-- The key codes looked up in `legend_map` by the grid loop of
`create_overlay`, in loop order: rows 0..3, columns 0..9, skipping
row 3 / column 5, with `user_kc = (row + 1) * 10 + (col + 1) % 10`. -/
def overlay_key_codes : List Int :=
  (List.range 4).flatMap fun row =>
    (List.range 10).filterMap fun col =>
      if row = 3 ∧ col = 5 then none
      else some ((Int.ofNat row + 1) * 10 + (Int.ofNat col + 1) % 10)

/-- The legend table after one rendering pass of `create_overlay`: when
`show_legends` is set, every drawn key performs `legend_map[user_kc]`
(`operator[]`, which inserts missing keys); otherwise no lookup happens. -/
def legend_map_after (show_legends : Bool) : List (Int × String) :=
  if show_legends then
    overlay_key_codes.foldl (fun m kc => (map_index m kc).1) legend_map
  else legend_map

/-- Position and size of one key outline drawn by the grid loop of
`create_overlay` (the `rounded_rect` call issued when `show_outlines` is
set), with the source's formulas for `x`, `y` and `key_height`:
`y = height - (row * key_row_pitch + key_row_1_offset)`,
the enter key at row 2 / column 5 gets `key_height + key_row_pitch`,
`x = width / 2 - 5 * key_col_pitch + (key_col_pitch - key_width) / 2
+ col * key_col_pitch`. -/
structure KeyRect (K : Type) where
  row : Nat
  col : Nat
  x : K
  y : K
  width : K
  height : K
  deriving DecidableEq

/-- The sequence of key outlines drawn per overlay by the loop at
`voyager-overlay.cpp` lines 173-192: rows 0..3, columns 0..9, skipping
row 3 / column 5 (bottom half of the enter key). -/
def overlay_key_rects {K : Type} [LinearOrderedField K]
    (geom : OverlayGeometry K) : List (KeyRect K) :=
  (List.range 4).flatMap fun (row : Nat) =>
    (List.range 10).filterMap fun (col : Nat) =>
      if row = 3 ∧ col = 5 then none
      else
        let y := geom.height_in - ((row : K) * geom.key_row_pitch_in + geom.key_row_1_offset_in)
        let key_height :=
          if row = 2 ∧ col = 5 then geom.key_height_in + geom.key_row_pitch_in
          else geom.key_height_in
        let x := geom.width_in / 2 - 5 * geom.key_col_pitch_in
                   + (geom.key_col_pitch_in - geom.key_width_in) / 2
                   + (col : K) * geom.key_col_pitch_in
        some ⟨row, col, x, y, geom.key_width_in, key_height⟩

/-- A C++ `double` division: `none` marks a division by zero (IEEE
arithmetic would produce an infinity there, which this exact model cannot
represent). -/
def fpDiv (a b : ℚ) : Option ℚ := if b = 0 then none else some (a / b)

/-- C++ `double` to `int` conversion: truncation toward zero. -/
def cppIntOfRat (q : ℚ) : Int := if 0 ≤ q then ⌊q⌋ else -⌊-q⌋

/-- The tiling layout computation of `createPageContents`
(`voyager-overlay.cpp` lines 243-248), as a function of the available
height, the overlay height and the minimum-gap constant
(`OVERLAY_MINIMUM_Y_GAP_IN = 0.1`):
`int y_count = available_height_in / geom.height_in;`
`if ((available_height_in - ((y_count * geom.height_in) / (y_count - 1))) < OVERLAY_MINIMUM_Y_GAP_IN) y_count--;`
`double overlay_y_gap_in = (available_height_in - (y_count * geom.height_in)) / (y_count - 1);`
Returns the final `(y_count, overlay_y_gap_in)`, or `none` if any of the
divisions divides by zero. -/
def tiling_layout (available_height_in height_in min_gap : ℚ) : Option (Int × ℚ) :=
  (fpDiv available_height_in height_in).bind fun q =>
  let y_count := cppIntOfRat q
  (fpDiv ((y_count : ℚ) * height_in) ((y_count : ℚ) - 1)).bind fun t =>
  let y_count := if available_height_in - t < min_gap then y_count - 1 else y_count
  (fpDiv (available_height_in - (y_count : ℚ) * height_in) ((y_count : ℚ) - 1)).bind fun gap =>
  some (y_count, gap)

/-- The vertical offset of each overlay copy relative to the top inset:
copy `y` is placed at `top_in + y * (height + gap)`
(`voyager-overlay.cpp` line 268), so relative offsets are
`y * (height + gap)` for `y = 0 .. y_count - 1`. -/
def tiling_offsets (y_count : Int) (height_in gap : ℚ) : List ℚ :=
  (List.range y_count.toNat).map fun y => (y : ℚ) * (height_in + gap)

/-- A concrete builder state with a defined cursor, used by witnesses. -/
def css_defined : CSS ℚ :=
  { buf := [], trailer_length := 2, have_last_coord := true, last_coord := ⟨0, 2⟩ }

/-- A concrete builder state with an undefined cursor (a freshly
constructed `ContentStreamString(true)`), used by witnesses. -/
def css_undefined : CSS ℚ := CSS.init ℚ true

/-- A concrete real-valued builder state whose cursor sits at `(0, 1)`,
used by the `arc_to` witness. -/
def css_real_defined : CSS ℝ :=
  { buf := [], trailer_length := 2, have_last_coord := true, last_coord := ⟨0, 1⟩ }

/-! ### Helper lemmas about the builder -/

/-- With a defined cursor, `arc_to` always succeeds and leaves the cursor
defined. -/
theorem CSS.arcToOk {K : Type} [LinearOrderedField K] (s : CSS K) (sqrt2 : K)
    (dest : Coord K) (clockwise : Bool) (h : s.have_last_coord = true) :
    ∃ t, s.arc_to sqrt2 dest clockwise = .ok t ∧ t.have_last_coord = true := by
  unfold CSS.arc_to
  rw [h]
  rw [if_neg (by simp)]
  exact ⟨_, rfl, rfl⟩

/-- Chaining an infallible-step continuation after a successful builder
call keeps the whole chain successful. -/
theorem CSS.bindOk {K : Type} (e : Except (String × CSS K) (CSS K))
    (f : CSS K → Except (String × CSS K) (CSS K))
    (he : ∃ t, e = .ok t ∧ t.have_last_coord = true)
    (hf : ∀ t, t.have_last_coord = true → ∃ u, f t = .ok u) :
    ∃ u, e.bind f = .ok u := by
  obtain ⟨t, het, ht⟩ := he
  rw [het]
  obtain ⟨u, hu⟩ := hf t ht
  exact ⟨u, by rw [show Except.bind (Except.ok t) f = f t from rfl, hu]⟩

/-- With a defined cursor, `rect` always succeeds. -/
theorem CSS.rectOk {K : Type} [LinearOrderedField K] (s : CSS K)
    (dimensions : Dimensions K) (h : s.have_last_coord = true) :
    ∃ t, s.rect dimensions = .ok t := by
  unfold CSS.rect
  rw [h]
  rw [if_neg (by simp)]
  exact ⟨_, rfl⟩

/-- With a defined cursor, `rounded_rect` always succeeds: every inner
`arc_to` runs after a `move_to`/`line_to` that (re)defines the cursor. -/
theorem CSS.roundedRectOk {K : Type} [LinearOrderedField K] (s : CSS K)
    (sqrt2 : K) (dimensions : Dimensions K) (radius : K)
    (h : s.have_last_coord = true) :
    ∃ t, s.rounded_rect sqrt2 dimensions radius = .ok t := by
  unfold CSS.rounded_rect
  rw [h]
  rw [if_neg (by simp)]
  by_cases hr : radius = 0
  · rw [if_pos hr]
    exact s.rectOk dimensions h
  · rw [if_neg hr]
    dsimp only
    refine CSS.bindOk _ _ (CSS.arcToOk _ sqrt2 _ true rfl) ?_
    intro t1 h1
    dsimp only
    refine CSS.bindOk _ _ (CSS.arcToOk _ sqrt2 _ true rfl) ?_
    intro t2 h2
    dsimp only
    refine CSS.bindOk _ _ (CSS.arcToOk _ sqrt2 _ true rfl) ?_
    intro t3 h3
    dsimp only
    refine CSS.bindOk _ _ (CSS.arcToOk _ sqrt2 _ true rfl) ?_
    intro t4 h4
    exact ⟨_, rfl⟩

/-! ### Claim theorems -/

/-- C4: for every dimensions value and every builder state with a defined
cursor, `rounded_rect(dims, 0)` produces exactly the same builder state —
the same appended instructions (hence byte-for-byte the same appended text)
and the same final cursor — as `rect(dims)`. -/
theorem roundedRect_zero_radius_eq_rect {K : Type} [LinearOrderedField K]
    (sqrt2 : K) (s : CSS K) (dims : Dimensions K)
    (h : s.have_last_coord = true) :
    s.rounded_rect sqrt2 dims 0 = s.rect dims := by
  unfold CSS.rounded_rect
  rw [h]
  rw [if_neg (by simp), if_pos rfl]

/-- Witness for C4 at a concrete builder state and dimensions. -/
theorem roundedRect_zero_radius_eq_rect_witness :
    css_defined.have_last_coord = true
    ∧ CSS.rounded_rect css_defined (99/70) ⟨2, 1⟩ 0 = CSS.rect css_defined ⟨2, 1⟩ :=
  ⟨rfl, roundedRect_zero_radius_eq_rect (99/70) css_defined ⟨2, 1⟩ rfl⟩

/-- C6: `arc_to`, `rect` and `rounded_rect` succeed exactly when the cursor
is defined; with an undefined cursor each fails with the precondition
error message `"arc_to() origin unknown"` (the message text is shared by
all three operations in the source). -/
theorem cursor_precondition_errors {K : Type} [LinearOrderedField K]
    (sqrt2 : K) (s : CSS K) (dest : Coord K) (clockwise : Bool)
    (dims : Dimensions K) (radius : K) :
    (exceptIsOk (s.arc_to sqrt2 dest clockwise) = s.have_last_coord
      ∧ exceptIsOk (s.rect dims) = s.have_last_coord
      ∧ exceptIsOk (s.rounded_rect sqrt2 dims radius) = s.have_last_coord)
    ∧ (s.have_last_coord = false →
        s.arc_to sqrt2 dest clockwise = .error ("arc_to() origin unknown", s)
        ∧ s.rect dims = .error ("arc_to() origin unknown", s)
        ∧ s.rounded_rect sqrt2 dims radius = .error ("arc_to() origin unknown", s)) := by
  cases hc : s.have_last_coord
  · constructor
    · refine ⟨?_, ?_, ?_⟩
      · rw [show s.arc_to sqrt2 dest clockwise = .error ("arc_to() origin unknown", s) from by
          unfold CSS.arc_to; rw [hc]; rw [if_pos rfl]]
        rfl
      · rw [show s.rect dims = .error ("arc_to() origin unknown", s) from by
          unfold CSS.rect; rw [hc]; rw [if_pos rfl]]
        rfl
      · rw [show s.rounded_rect sqrt2 dims radius = .error ("arc_to() origin unknown", s) from by
          unfold CSS.rounded_rect; rw [hc]; rw [if_pos rfl]]
        rfl
    · intro _
      refine ⟨?_, ?_, ?_⟩
      · unfold CSS.arc_to; rw [hc]; rw [if_pos rfl]
      · unfold CSS.rect; rw [hc]; rw [if_pos rfl]
      · unfold CSS.rounded_rect; rw [hc]; rw [if_pos rfl]
  · constructor
    · refine ⟨?_, ?_, ?_⟩
      · obtain ⟨t, het, -⟩ := CSS.arcToOk s sqrt2 dest clockwise hc
        rw [het]; rfl
      · obtain ⟨t, het⟩ := CSS.rectOk s dims hc
        rw [het]; rfl
      · obtain ⟨t, het⟩ := CSS.roundedRectOk s sqrt2 dims radius hc
        rw [het]; rfl
    · intro hfalse
      exact absurd hfalse (by simp)

/-- Witness for C6 at a concrete cursor-undefined builder state. -/
theorem cursor_precondition_errors_witness :
    css_undefined.have_last_coord = false
    ∧ (CSS.arc_to css_undefined (99/70) ⟨1, 1⟩ true =
         .error ("arc_to() origin unknown", css_undefined)
       ∧ CSS.rect css_undefined ⟨2, 1⟩ =
         .error ("arc_to() origin unknown", css_undefined)
       ∧ CSS.rounded_rect css_undefined (99/70) ⟨2, 1⟩ (1/4) =
         .error ("arc_to() origin unknown", css_undefined)) :=
  ⟨rfl, (cursor_precondition_errors (99/70) css_undefined ⟨1, 1⟩ true ⟨2, 1⟩ (1/4)).2 rfl⟩

/-- C10: when `arc_to`, `rect` or `rounded_rect` raises the
undefined-cursor error, the builder is exactly as it was before the call:
the error is thrown before any mutation, so the state carried by the
exception (buffer, trailer offset, cursor point and cursor flag) is the
input state itself. -/
theorem error_leaves_builder_unchanged {K : Type} [LinearOrderedField K]
    (sqrt2 : K) (s : CSS K) (dest : Coord K) (clockwise : Bool)
    (dims : Dimensions K) (radius : K) (e1 e2 e3 : String × CSS K) :
    (s.arc_to sqrt2 dest clockwise = .error e1 → e1.2 = s)
    ∧ (s.rect dims = .error e2 → e2.2 = s)
    ∧ (s.rounded_rect sqrt2 dims radius = .error e3 → e3.2 = s) := by
  cases hc : s.have_last_coord
  · refine ⟨?_, ?_, ?_⟩ <;> intro hE
    · rw [show s.arc_to sqrt2 dest clockwise = .error ("arc_to() origin unknown", s) from by
        unfold CSS.arc_to; rw [hc]; rw [if_pos rfl]] at hE
      obtain rfl : ("arc_to() origin unknown", s) = e1 := by
        simpa using hE
      rfl
    · rw [show s.rect dims = .error ("arc_to() origin unknown", s) from by
        unfold CSS.rect; rw [hc]; rw [if_pos rfl]] at hE
      obtain rfl : ("arc_to() origin unknown", s) = e2 := by
        simpa using hE
      rfl
    · rw [show s.rounded_rect sqrt2 dims radius = .error ("arc_to() origin unknown", s) from by
        unfold CSS.rounded_rect; rw [hc]; rw [if_pos rfl]] at hE
      obtain rfl : ("arc_to() origin unknown", s) = e3 := by
        simpa using hE
      rfl
  · refine ⟨?_, ?_, ?_⟩ <;> intro hE
    · obtain ⟨t, het, -⟩ := CSS.arcToOk s sqrt2 dest clockwise hc
      rw [het] at hE
      exact absurd hE (by simp)
    · obtain ⟨t, het⟩ := CSS.rectOk s dims hc
      rw [het] at hE
      exact absurd hE (by simp)
    · obtain ⟨t, het⟩ := CSS.roundedRectOk s sqrt2 dims radius hc
      rw [het] at hE
      exact absurd hE (by simp)

/-- Witness for C10: the three failing calls on a concrete cursor-undefined
state, and the carried state equal to the input state. -/
theorem error_leaves_builder_unchanged_witness :
    (CSS.arc_to css_undefined (99/70) ⟨1, 1⟩ true =
       .error ("arc_to() origin unknown", css_undefined)
     ∧ ("arc_to() origin unknown", css_undefined).2 = css_undefined)
    ∧ (CSS.rect css_undefined ⟨2, 1⟩ =
         .error ("arc_to() origin unknown", css_undefined)
       ∧ ("arc_to() origin unknown", css_undefined).2 = css_undefined)
    ∧ (CSS.rounded_rect css_undefined (99/70) ⟨2, 1⟩ (1/4) =
         .error ("arc_to() origin unknown", css_undefined)
       ∧ ("arc_to() origin unknown", css_undefined).2 = css_undefined) :=
  ⟨⟨rfl, (error_leaves_builder_unchanged (99/70) css_undefined ⟨1, 1⟩ true ⟨2, 1⟩
      (1/4) ("arc_to() origin unknown", css_undefined)
      ("arc_to() origin unknown", css_undefined)
      ("arc_to() origin unknown", css_undefined)).1 rfl⟩,
   ⟨rfl, (error_leaves_builder_unchanged (99/70) css_undefined ⟨1, 1⟩ true ⟨2, 1⟩
      (1/4) ("arc_to() origin unknown", css_undefined)
      ("arc_to() origin unknown", css_undefined)
      ("arc_to() origin unknown", css_undefined)).2.1 rfl⟩,
   ⟨rfl, (error_leaves_builder_unchanged (99/70) css_undefined ⟨1, 1⟩ true ⟨2, 1⟩
      (1/4) ("arc_to() origin unknown", css_undefined)
      ("arc_to() origin unknown", css_undefined)
      ("arc_to() origin unknown", css_undefined)).2.2 rfl⟩⟩

/-- C5: for each of the four clockwise quadrant cases (the signs of
`cursor - dest` in both coordinates), `arc_to` emits one cubic curve whose
first control point lies at distance `c = r * 4 * (sqrt 2 - 1) / 3` from the
start point and whose second control point lies at distance `c` from the
end point, where `r = |cursor.x - dest.x|`; each control point is offset
along the axis (and in the direction) implied by its quadrant, pinned
exactly by the four quadrant-indexed conjuncts below: quadrant 1 offsets
the first control point by `+c` in x and the second by `+c` in y,
quadrant 2 by `+c` in y and `-c` in x, quadrant 3 by `-c` in x and `-c` in
y, quadrant 4 by `-c` in y and `+c` in x — the alternation that keeps the
curve tangent to the edges meeting at each endpoint.  On success the
cursor becomes `dest`. -/
theorem arcTo_clockwise_control_points (s : CSS ℝ) (dest : Coord ℝ)
    (hcur : s.have_last_coord = true)
    (hx : s.last_coord.x ≠ dest.x) (hy : s.last_coord.y ≠ dest.y) :
    ∃ p1 p2 : Coord ℝ,
      s.arc_to (Real.sqrt 2) dest true =
        .ok { s.insertInstr (.curveTo p1.x p1.y p2.x p2.y dest.x dest.y) with
              last_coord := dest
              have_last_coord := true }
      ∧ (p1.x - s.last_coord.x) ^ 2 + (p1.y - s.last_coord.y) ^ 2 =
          (|s.last_coord.x - dest.x| * 4 * (Real.sqrt 2 - 1) / 3) ^ 2
      ∧ (p2.x - dest.x) ^ 2 + (p2.y - dest.y) ^ 2 =
          (|s.last_coord.x - dest.x| * 4 * (Real.sqrt 2 - 1) / 3) ^ 2
      ∧ (s.last_coord.x < dest.x ∧ s.last_coord.y > dest.y →
          p1 = ⟨s.last_coord.x + |s.last_coord.x - dest.x| * 4 * (Real.sqrt 2 - 1) / 3,
                s.last_coord.y⟩
          ∧ p2 = ⟨dest.x,
                  dest.y + |s.last_coord.x - dest.x| * 4 * (Real.sqrt 2 - 1) / 3⟩)
      ∧ (s.last_coord.x < dest.x ∧ s.last_coord.y < dest.y →
          p1 = ⟨s.last_coord.x,
                s.last_coord.y + |s.last_coord.x - dest.x| * 4 * (Real.sqrt 2 - 1) / 3⟩
          ∧ p2 = ⟨dest.x - |s.last_coord.x - dest.x| * 4 * (Real.sqrt 2 - 1) / 3,
                  dest.y⟩)
      ∧ (s.last_coord.x > dest.x ∧ s.last_coord.y < dest.y →
          p1 = ⟨s.last_coord.x - |s.last_coord.x - dest.x| * 4 * (Real.sqrt 2 - 1) / 3,
                s.last_coord.y⟩
          ∧ p2 = ⟨dest.x,
                  dest.y - |s.last_coord.x - dest.x| * 4 * (Real.sqrt 2 - 1) / 3⟩)
      ∧ (s.last_coord.x > dest.x ∧ s.last_coord.y > dest.y →
          p1 = ⟨s.last_coord.x,
                s.last_coord.y - |s.last_coord.x - dest.x| * 4 * (Real.sqrt 2 - 1) / 3⟩
          ∧ p2 = ⟨dest.x + |s.last_coord.x - dest.x| * 4 * (Real.sqrt 2 - 1) / 3,
                  dest.y⟩) := by
  unfold CSS.arc_to
  rw [hcur]
  rw [if_neg (by simp)]
  dsimp only
  set c : ℝ := |s.last_coord.x - dest.x| * 4 * (Real.sqrt 2 - 1) / 3 with hc
  rw [if_pos rfl]
  rcases lt_or_gt_of_ne hx with hxlt | hxgt <;>
    rcases lt_or_gt_of_ne hy with hylt | hygt
  · -- second quadrant: x0 < x3, y0 < y3
    rw [if_neg (fun hq => absurd hq.2 (not_lt.mpr hylt.le)),
        if_pos ⟨hxlt, hylt⟩]
    refine ⟨⟨s.last_coord.x, s.last_coord.y + c⟩, ⟨dest.x - c, dest.y⟩,
      rfl, by dsimp only; ring, by dsimp only; ring, ?_, ?_, ?_, ?_⟩
    · exact fun hq => absurd hq.2 (not_lt.mpr hylt.le)
    · exact fun hq => ⟨rfl, rfl⟩
    · exact fun hq => absurd hq.1 (not_lt.mpr hxlt.le)
    · exact fun hq => absurd hq.1 (not_lt.mpr hxlt.le)
  · -- first quadrant: x0 < x3, y0 > y3
    rw [if_pos ⟨hxlt, hygt⟩]
    refine ⟨⟨s.last_coord.x + c, s.last_coord.y⟩, ⟨dest.x, dest.y + c⟩,
      rfl, by dsimp only; ring, by dsimp only; ring, ?_, ?_, ?_, ?_⟩
    · exact fun hq => ⟨rfl, rfl⟩
    · exact fun hq => absurd hq.2 (not_lt.mpr hygt.le)
    · exact fun hq => absurd hq.1 (not_lt.mpr hxlt.le)
    · exact fun hq => absurd hq.1 (not_lt.mpr hxlt.le)
  · -- third quadrant: x0 > x3, y0 < y3
    rw [if_neg (fun hq => absurd hq.1 (not_lt.mpr hxgt.le)),
        if_neg (fun hq => absurd hq.1 (not_lt.mpr hxgt.le)),
        if_pos ⟨hxgt, hylt⟩]
    refine ⟨⟨s.last_coord.x - c, s.last_coord.y⟩, ⟨dest.x, dest.y - c⟩,
      rfl, by dsimp only; ring, by dsimp only; ring, ?_, ?_, ?_, ?_⟩
    · exact fun hq => absurd hq.1 (not_lt.mpr hxgt.le)
    · exact fun hq => absurd hq.1 (not_lt.mpr hxgt.le)
    · exact fun hq => ⟨rfl, rfl⟩
    · exact fun hq => absurd hq.2 (not_lt.mpr hylt.le)
  · -- fourth quadrant: x0 > x3, y0 > y3
    rw [if_neg (fun hq => absurd hq.1 (not_lt.mpr hxgt.le)),
        if_neg (fun hq => absurd hq.1 (not_lt.mpr hxgt.le)),
        if_neg (fun hq => absurd hq.2 (not_lt.mpr hygt.le))]
    refine ⟨⟨s.last_coord.x, s.last_coord.y - c⟩, ⟨dest.x + c, dest.y⟩,
      rfl, by dsimp only; ring, by dsimp only; ring, ?_, ?_, ?_, ?_⟩
    · exact fun hq => absurd hq.1 (not_lt.mpr hxgt.le)
    · exact fun hq => absurd hq.1 (not_lt.mpr hxgt.le)
    · exact fun hq => absurd hq.2 (not_lt.mpr hygt.le)
    · exact fun hq => ⟨rfl, rfl⟩

/-- Witness for C5: a concrete first-quadrant arc from `(0, 1)` to
`(1, 0)`. -/
theorem arcTo_clockwise_control_points_witness :
    css_real_defined.have_last_coord = true
    ∧ css_real_defined.last_coord.x ≠ (⟨1, 0⟩ : Coord ℝ).x
    ∧ css_real_defined.last_coord.y ≠ (⟨1, 0⟩ : Coord ℝ).y
    ∧ (∃ p1 p2 : Coord ℝ,
        css_real_defined.arc_to (Real.sqrt 2) ⟨1, 0⟩ true =
          .ok { css_real_defined.insertInstr
                  (.curveTo p1.x p1.y p2.x p2.y (⟨1, 0⟩ : Coord ℝ).x (⟨1, 0⟩ : Coord ℝ).y) with
                last_coord := ⟨1, 0⟩
                have_last_coord := true }
        ∧ (p1.x - css_real_defined.last_coord.x) ^ 2
            + (p1.y - css_real_defined.last_coord.y) ^ 2 =
            (|css_real_defined.last_coord.x - (⟨1, 0⟩ : Coord ℝ).x| * 4 * (Real.sqrt 2 - 1) / 3) ^ 2
        ∧ (p2.x - (⟨1, 0⟩ : Coord ℝ).x) ^ 2 + (p2.y - (⟨1, 0⟩ : Coord ℝ).y) ^ 2 =
            (|css_real_defined.last_coord.x - (⟨1, 0⟩ : Coord ℝ).x| * 4 * (Real.sqrt 2 - 1) / 3) ^ 2
        ∧ (css_real_defined.last_coord.x < (⟨1, 0⟩ : Coord ℝ).x
            ∧ css_real_defined.last_coord.y > (⟨1, 0⟩ : Coord ℝ).y →
            p1 = ⟨css_real_defined.last_coord.x
                    + |css_real_defined.last_coord.x - (⟨1, 0⟩ : Coord ℝ).x| * 4 * (Real.sqrt 2 - 1) / 3,
                  css_real_defined.last_coord.y⟩
            ∧ p2 = ⟨(⟨1, 0⟩ : Coord ℝ).x,
                    (⟨1, 0⟩ : Coord ℝ).y
                      + |css_real_defined.last_coord.x - (⟨1, 0⟩ : Coord ℝ).x| * 4 * (Real.sqrt 2 - 1) / 3⟩)
        ∧ (css_real_defined.last_coord.x < (⟨1, 0⟩ : Coord ℝ).x
            ∧ css_real_defined.last_coord.y < (⟨1, 0⟩ : Coord ℝ).y →
            p1 = ⟨css_real_defined.last_coord.x,
                  css_real_defined.last_coord.y
                    + |css_real_defined.last_coord.x - (⟨1, 0⟩ : Coord ℝ).x| * 4 * (Real.sqrt 2 - 1) / 3⟩
            ∧ p2 = ⟨(⟨1, 0⟩ : Coord ℝ).x
                      - |css_real_defined.last_coord.x - (⟨1, 0⟩ : Coord ℝ).x| * 4 * (Real.sqrt 2 - 1) / 3,
                    (⟨1, 0⟩ : Coord ℝ).y⟩)
        ∧ (css_real_defined.last_coord.x > (⟨1, 0⟩ : Coord ℝ).x
            ∧ css_real_defined.last_coord.y < (⟨1, 0⟩ : Coord ℝ).y →
            p1 = ⟨css_real_defined.last_coord.x
                    - |css_real_defined.last_coord.x - (⟨1, 0⟩ : Coord ℝ).x| * 4 * (Real.sqrt 2 - 1) / 3,
                  css_real_defined.last_coord.y⟩
            ∧ p2 = ⟨(⟨1, 0⟩ : Coord ℝ).x,
                    (⟨1, 0⟩ : Coord ℝ).y
                      - |css_real_defined.last_coord.x - (⟨1, 0⟩ : Coord ℝ).x| * 4 * (Real.sqrt 2 - 1) / 3⟩)
        ∧ (css_real_defined.last_coord.x > (⟨1, 0⟩ : Coord ℝ).x
            ∧ css_real_defined.last_coord.y > (⟨1, 0⟩ : Coord ℝ).y →
            p1 = ⟨css_real_defined.last_coord.x,
                  css_real_defined.last_coord.y
                    - |css_real_defined.last_coord.x - (⟨1, 0⟩ : Coord ℝ).x| * 4 * (Real.sqrt 2 - 1) / 3⟩
            ∧ p2 = ⟨(⟨1, 0⟩ : Coord ℝ).x
                      + |css_real_defined.last_coord.x - (⟨1, 0⟩ : Coord ℝ).x| * 4 * (Real.sqrt 2 - 1) / 3,
                    (⟨1, 0⟩ : Coord ℝ).y⟩)) :=
  ⟨rfl, by norm_num [css_real_defined], by norm_num [css_real_defined],
   arcTo_clockwise_control_points css_real_defined ⟨1, 0⟩ rfl
     (by norm_num [css_real_defined]) (by norm_num [css_real_defined])⟩

/-- C1 (failing-input evaluation): at `availableHeight = 2.5`,
`overlayHeight = 2.10`, minimum gap `0.1`, the initial count is 1 and the
decrement check divides by `count - 1 = 0`: the layout computation hits a
division by zero instead of producing a single zero-gap placement.  (Under
IEEE doubles the comparison sees `-inf < 0.1`, decrements the count to 0,
computes a gap of `-2.5`, and places no overlay at all.) -/
theorem tiling_one_copy_divides_by_zero :
    tiling_layout (5/2) (21/10) (1/10) = none := by
  norm_num [tiling_layout, fpDiv, cppIntOfRat, Option.bind]

/-- C2: the spec's concrete example holds (`available = 7.0`,
`height = 2.10`, minimum gap `0.1` gives count 3, gap 0.35, offsets
`{0, 2.45, 4.90}`), but the universal decrement rule does not: at
`available = 6.1`, `height = 2`, the gap that results from 3 copies is
`0.05 < 0.1`, yet the code's mis-parenthesized check
(`available - count*height/(count-1)` instead of
`(available - count*height)/(count-1)`) compares `3.1 < 0.1` and does not
decrement, so the final layout keeps count 3 with a gap below the
minimum. -/
theorem tiling_decrement_check_misparenthesized :
    (tiling_layout 7 (21/10) (1/10) = some (3, 7/20)
      ∧ tiling_offsets 3 (21/10) (7/20) = [0, 49/20, 49/10])
    ∧ (tiling_layout (61/10) 2 (1/10) = some (3, 1/20)
      ∧ ((1 : ℚ)/20) < 1/10) := by
  refine ⟨⟨?_, ?_⟩, ?_, ?_⟩
  · norm_num [tiling_layout, fpDiv, cppIntOfRat, Option.bind]
  · show tiling_offsets 3 (21/10) (7/20) = [0, 49/20, 49/10]
    rw [show tiling_offsets 3 (21/10) (7/20) =
        [((0 : ℕ) : ℚ) * (21/10 + 7/20), ((1 : ℕ) : ℚ) * (21/10 + 7/20),
         ((2 : ℕ) : ℚ) * (21/10 + 7/20)] from rfl]
    norm_num
  · norm_num [tiling_layout, fpDiv, cppIntOfRat, Option.bind]
  · norm_num

set_option maxRecDepth 8000 in
/-- C3 (counterexample): rendering the legends is not read-only on the
legend table — the drawn key code 20 (row 1, column 9) is absent from the
constructed table, so `operator[]` inserts a default entry for it and the
entry set changes. -/
theorem legend_map_mutated_by_render :
    legend_map_after true ≠ legend_map := by
  decide

set_option maxRecDepth 8000 in
/-- C3 (amended): a rendering pass leaves every existing legend entry
intact and mutates the table exactly by inserting one value-initialized
(empty) entry for key code 20, the only drawn key code missing from the
table; with legends disabled no lookup happens and the table is
untouched. -/
theorem legend_map_render_inserts_code20 :
    legend_map_after true = legend_map ++ [(20, "")]
    ∧ legend_map_after false = legend_map := by
  exact ⟨by decide, by decide⟩

set_option maxRecDepth 8000 in
/-- C8 (counterexample): looking up key code 40 after table construction
does not return the last-assigned string `"OR"`. -/
theorem legend_40_lookup_not_last :
    ¬ (legend_map.lookup 40 = some "OR") := by
  decide

set_option maxRecDepth 8000 in
/-- C8 (amended): for the duplicated key code 40 the first-assigned string
wins: `std::map` initializer-list construction inserts elements one by one
and `insert` never overwrites an existing key, so the lookup returns
`"NOT"`. -/
theorem legend_40_first_assignment_wins :
    legend_map.lookup 40 = some "NOT" := by
  decide

set_option maxRecDepth 8000 in
/-- C7: for every overlay geometry the keypad loop draws exactly 39 key
outlines — the 4×10 grid minus the skipped cell at row 3, column 5
(0-indexed) — and the key at row 2, column 5 is drawn with height
`key_height + key_row_pitch` while every other drawn key has height
`key_height`. -/
theorem overlay_draws_39_keys (geom : OverlayGeometry ℚ) :
    (overlay_key_rects geom).length = 39
    ∧ (overlay_key_rects geom).map (fun k => (k.row, k.col)) =
        [(0, 0), (0, 1), (0, 2), (0, 3), (0, 4), (0, 5), (0, 6), (0, 7), (0, 8), (0, 9),
         (1, 0), (1, 1), (1, 2), (1, 3), (1, 4), (1, 5), (1, 6), (1, 7), (1, 8), (1, 9),
         (2, 0), (2, 1), (2, 2), (2, 3), (2, 4), (2, 5), (2, 6), (2, 7), (2, 8), (2, 9),
         (3, 0), (3, 1), (3, 2), (3, 3), (3, 4), (3, 6), (3, 7), (3, 8), (3, 9)]
    ∧ (overlay_key_rects geom).map KeyRect.height =
        (overlay_key_rects geom).map (fun k =>
          if k.row = 2 ∧ k.col = 5 then geom.key_height_in + geom.key_row_pitch_in
          else geom.key_height_in) := by
  refine ⟨rfl, rfl, rfl⟩

set_option maxRecDepth 8000 in
set_option maxHeartbeats 2000000 in
/-- The buffer produced by `create_registration` decomposes into the
state-setup header followed by the three marks' instructions. -/
theorem reg_buf_eq (w h : ℚ) (g : RegistrationGeometry ℚ) :
    reg_buf w h g =
      reg_header_instrs g ++ reg_square_instrs h g
        ++ reg_bl_angle_instrs g ++ reg_tr_angle_instrs w h g := by
  rfl

/-- Shifting the square mark: its position depends only on the page height
(the `x` anchor is the left inset), so a page-size change moves it by
`(0, Δh)`. -/
theorem reg_square_shift (h1 h2 : ℚ) (g : RegistrationGeometry ℚ) :
    reg_square_instrs h2 g = (reg_square_instrs h1 g).map (instr_shift 0 (h2 - h1)) := by
  simp [reg_square_instrs, instr_shift]
  ring_nf

/-- Shifting the top-right angle mark: it is anchored to the right inset
and top inset, so a page-size change moves it by `(Δw, Δh)`. -/
theorem reg_tr_shift (w1 h1 w2 h2 : ℚ) (g : RegistrationGeometry ℚ) :
    reg_tr_angle_instrs w2 h2 g =
      (reg_tr_angle_instrs w1 h1 g).map (instr_shift (w2 - w1) (h2 - h1)) := by
  simp [reg_tr_angle_instrs, instr_shift]
  ring_nf
  exact ⟨trivial, trivial⟩

/-- C9 (amended): the registration-mark output is a function of page size
and registration geometry alone, and each mark is anchored to its own page
region: changing the page size from `(w1, h1)` to `(w2, h2)` moves the
top-left square by `(0, h2 - h1)`, leaves the bottom-left right angle
unchanged (it is anchored to the bottom-left insets), and moves the
top-right right angle by `(w2 - w1, h2 - h1)`. -/
theorem reg_marks_anchored_per_corner (g : RegistrationGeometry ℚ)
    (w1 h1 w2 h2 : ℚ) :
    reg_buf w1 h1 g =
      reg_header_instrs g ++ reg_square_instrs h1 g
        ++ reg_bl_angle_instrs g ++ reg_tr_angle_instrs w1 h1 g
    ∧ reg_buf w2 h2 g =
      reg_header_instrs g
        ++ (reg_square_instrs h1 g).map (instr_shift 0 (h2 - h1))
        ++ reg_bl_angle_instrs g
        ++ (reg_tr_angle_instrs w1 h1 g).map (instr_shift (w2 - w1) (h2 - h1)) := by
  constructor
  · exact reg_buf_eq w1 h1 g
  · rw [reg_buf_eq w2 h2 g, ← reg_square_shift h1 h2 g, ← reg_tr_shift w1 h1 w2 h2 g]

/-- C9 (counterexample): mark positions do not shift uniformly by the
page-size delta.  Growing the page from 8.5×11 to 9.5×12 (delta `(1, 1)`)
does not shift every mark by `(1, 1)`: the top-left square and the
bottom-left angle keep their x anchored to the left inset, and the
bottom-left angle keeps its y anchored to the bottom inset. -/
theorem reg_marks_not_uniform_shift :
    ¬ (reg_buf (19/2) 12 cameo4_no_mat_reg_geometry =
       (reg_buf (17/2) 11 cameo4_no_mat_reg_geometry).map (instr_shift 1 1)) := by
  intro hEq
  rw [reg_buf_eq, reg_buf_eq] at hEq
  simp only [reg_header_instrs, reg_square_instrs, reg_bl_angle_instrs,
    reg_tr_angle_instrs, instr_shift, cameo4_no_mat_reg_geometry,
    List.map_cons, List.map_nil, List.cons_append, List.nil_append,
    List.cons.injEq, Instr.moveTo.injEq, Instr.lineTo.injEq,
    Instr.setLineWidth.injEq] at hEq
  norm_num at hEq
